import Mathlib

/-!
Shallow embedding of `chunks/templatetags/chunks.py` from django-smartchunks.

The module defines three template nodes:
  * `ChunkNode.render`        — resolve a global chunk by key (tag `chunk`);
  * `ObjChunkNode.render`     — resolve an object-scoped inline chunk with an
    optional global default fallback (tag `object_chunk`);
  * `ObjChunksListNode.render`— bind the owner's full chunk mapping into the
    template context (tag `object_chunks_list`);
and the parse-time functions `do_get_chunk`, `do_get_object_chunk`,
`do_get_object_chunks_list`.

External collaborators are modelled explicitly:
  * the content store (Django ORM `Chunk.objects.get` / `InlineChunk.objects.get`)
    becomes lookups in a `Store` value;
  * the Django cache becomes an association list with recorded TTLs;
  * the renderer (`c.build_content(request, context)`) becomes an opaque
    function argument `rdr : String → String` applied to the chunk's content;
  * `django.template.Variable` resolution becomes `Variable.resolve`
    (quoted-literal handling plus context lookup — numeric literals, which no
    claim exercises, are omitted);
  * the constant `Chunk.ITEM_CACHE_PREFIX` lives in the models module outside
    the embedded file, so the render functions take it as a parameter `pfx`.

Every render function additionally returns the list of collaborator events it
performed (cache reads/writes, store lookups, renderer invocations), so that
"never consulted" / "nothing written" properties are plain equations.
-/

/-- A global content record: `Chunk` model (key unique, opaque content). -/
structure Chunk where
  key : String
  content : String
deriving DecidableEq, Repr

/-- An object-scoped content record: `InlineChunk` model, keyed by
(content type, object id, key). -/
structure InlineChunk where
  content_type : String
  object_id : Nat
  key : String
  content : String
deriving DecidableEq, Repr

/-- The content store: the collaborator behind `Chunk.objects` and
`InlineChunk.objects`. -/
structure Store where
  chunks : List Chunk
  inline_chunks : List InlineChunk
deriving DecidableEq, Repr

/-- `Chunk.objects.get(key=k)`: first chunk with the key, `none` models
`Chunk.DoesNotExist`. -/
def Chunk.objects_get (s : Store) (k : String) : Option Chunk :=
  s.chunks.find? (fun c => c.key == k)

/-- `InlineChunk.objects.get(content_type=t, object_id=i, key=k)`; `none`
models `InlineChunk.DoesNotExist`. -/
def InlineChunk.objects_get (s : Store) (t : String) (i : Nat) (k : String) :
    Option InlineChunk :=
  s.inline_chunks.find? (fun c => c.content_type == t && c.object_id == i && c.key == k)

/-- One entry of the result cache, retaining the TTL passed to `cache.set`. -/
structure CacheEntry where
  key : String
  value : String
  ttl : Int
deriving DecidableEq, Repr

/-- The Django result cache, newest entry first. -/
abbrev Cache := List CacheEntry

/-- `cache.get(key)`: `none` models the Python `None` miss result. -/
def cacheGet (c : Cache) (k : String) : Option String :=
  (c.find? (fun e => e.key == k)).map (fun e => e.value)

/-- `cache.set(key, value, ttl)`. -/
def cacheSet (c : Cache) (k : String) (v : String) (t : Int) : Cache :=
  ⟨k, v, t⟩ :: c

/-- An owning entity instance, as the template-tag layer sees it: its content
type and id, the owner-supplied cache-key derivation
`chunk_item_cache_key(key)`, and the owner-supplied aggregation capability
`obj.chunks(request, context)` (modelled as the mapping it returns). -/
structure Owner where
  typeName : String
  id : Nat
  cacheKeyFn : String → String
  chunksFn : List (String × String)

/-- A value a template variable can resolve to. -/
inductive Value where
  | str (s : String)
  | owner (o : Owner)
  | mapping (m : List (String × String))

/-- The template context: the ambient `request` (present or absent) and the
named variables. -/
structure Context where
  request : Option Unit
  vars : List (String × Value)

/-- Django `Variable`: a token whose first and last characters are the same
quote character resolves to the enclosed string literal. -/
def isQuotedLit (s : String) : Bool :=
  match s.toList.head?, s.toList.getLast? with
  | some c, some d => (c == '"' || c == '\'') && c == d
  | _, _ => false

/-- Strip the first and last character (Python `s[1:-1]`). -/
def stripEnds (s : String) : String :=
  String.mk ((s.toList.drop 1).dropLast)

/-- Context variable lookup; `none` models `VariableDoesNotExist`. -/
def lookupVar : List (String × Value) → String → Option Value
  | [], _ => none
  | (k, v) :: rest, s => if k == s then some v else lookupVar rest s

/-- `template.Variable(s).resolve(context)`: quoted literals resolve to the
literal string, everything else is looked up in the context. -/
def Variable.resolve (s : String) (ctx : Context) : Option Value :=
  if isQuotedLit s then some (.str (stripEnds s)) else lookupVar ctx.vars s

/-- Python truthiness of an optional string (`if self.default_chunk:` and
`if self.context_name:`): `None` and `""` are falsy. -/
def truthyOpt : Option String → Bool
  | none => false
  | some s => !(s == "")

/-- Observable collaborator events a render performs, in order. -/
inductive Event where
  | cacheGet (key : String)
  | chunkGet (key : String)
  | inlineGet (ownerType : String) (ownerId : Nat) (key : String)
  | renderCall (content : String)
  | cacheSet (key : String) (value : String) (ttl : Int)
deriving DecidableEq, Repr

/-- Outcome of `ChunkNode.render` / `ObjChunkNode.render`: a returned string,
a propagated `ImproperlyConfigured` (missing request), or a propagated
`AttributeError` (owner variable resolved to a non-owner value). -/
inductive RResult where
  | ok (text : String)
  | configError
  | attrError
deriving DecidableEq, Repr

/-- The `chunk` tag node: key and caching time. -/
structure ChunkNode where
  key : String
  cache_time : Int
deriving DecidableEq, Repr

/-- `ChunkNode.render(context)`. `pfx` stands for the module constant
`CACHE_PREFIX = Chunk.ITEM_CACHE_PREFIX` (defined in the models module,
outside the embedded file). The `try` block's `except Chunk.DoesNotExist`
turns the failed lookup into `''`; the `ImproperlyConfigured` raise is not
caught and propagates. -/
def ChunkNode.render (node : ChunkNode) (pfx : String) (store : Store)
    (rdr : String → String) (ctx : Context) (cache : Cache) :
    RResult × Cache × List Event :=
  let cache_key := pfx ++ node.key
  match cacheGet cache cache_key with
  | some content => (.ok content, cache, [.cacheGet cache_key])
  | none =>
    match Chunk.objects_get store node.key with
    | none => (.ok "", cache, [.cacheGet cache_key, .chunkGet node.key])
    | some c =>
      match ctx.request with
      | none => (.configError, cache, [.cacheGet cache_key, .chunkGet node.key])
      | some _ =>
        let content := rdr c.content
        (.ok content, cacheSet cache cache_key content node.cache_time,
          [.cacheGet cache_key, .chunkGet node.key, .renderCall c.content,
            .cacheSet cache_key content node.cache_time])

/-- The `object_chunk` tag node: owner variable token, key, caching time,
optional default global chunk key. -/
structure ObjChunkNode where
  obj : String
  key : String
  cache_time : Int
  default_chunk : Option String
deriving DecidableEq, Repr

/-- The found-chunk tail shared by the inline and default branches of
`ObjChunkNode.render`: require `request`, render, `cache.set`, return. -/
def renderFound (cache_key : String) (c_content : String) (cache_time : Int)
    (rdr : String → String) (ctx : Context) (cache : Cache) (tr : List Event) :
    RResult × Cache × List Event :=
  match ctx.request with
  | none => (.configError, cache, tr)
  | some _ =>
    let content := rdr c_content
    (.ok content, cacheSet cache cache_key content cache_time,
      tr ++ [.renderCall c_content, .cacheSet cache_key content cache_time])

/-- `ObjChunkNode.render(context)`. `VariableDoesNotExist` from resolving the
owner variable is caught by the outer `except` and yields `''`; a resolved
non-owner value makes `obj.chunk_item_cache_key` raise `AttributeError`,
which nothing catches; `ImproperlyConfigured` likewise propagates. -/
def ObjChunkNode.render (node : ObjChunkNode) (store : Store)
    (rdr : String → String) (ctx : Context) (cache : Cache) :
    RResult × Cache × List Event :=
  match Variable.resolve node.obj ctx with
  | none => (.ok "", cache, [])
  | some (.str _) => (.attrError, cache, [])
  | some (.mapping _) => (.attrError, cache, [])
  | some (.owner o) =>
    let cache_key := o.cacheKeyFn node.key
    match cacheGet cache cache_key with
    | some content => (.ok content, cache, [.cacheGet cache_key])
    | none =>
      match InlineChunk.objects_get store o.typeName o.id node.key with
      | some c =>
        renderFound cache_key c.content node.cache_time rdr ctx cache
          [.cacheGet cache_key, .inlineGet o.typeName o.id node.key]
      | none =>
        if truthyOpt node.default_chunk then
          match Chunk.objects_get store (node.default_chunk.getD "") with
          | none =>
            (.ok "", cache,
              [.cacheGet cache_key, .inlineGet o.typeName o.id node.key,
                .chunkGet (node.default_chunk.getD "")])
          | some c =>
            renderFound cache_key c.content node.cache_time rdr ctx cache
              [.cacheGet cache_key, .inlineGet o.typeName o.id node.key,
                .chunkGet (node.default_chunk.getD "")]
        else
          (.ok "", cache,
            [.cacheGet cache_key, .inlineGet o.typeName o.id node.key])

/-- The `object_chunks_list` tag node: owner variable token and the two
mutually exclusive target-name fields set by the constructor. -/
structure ObjChunksListNode where
  obj : String
  context_name : Option String
  context_name_var : Option String
deriving DecidableEq, Repr

/-- Parse-time errors of the node constructors and tag functions. -/
inductive PErr where
  | indexError
  | syntaxError
deriving DecidableEq, Repr

/-- The Python list `quotes = ["'\""]`: a single two-character element, so no
one-character string is ever a member. -/
def quotesPy : List String := ["\'\""]

/-- `ObjChunksListNode.__init__`. `context_name[1]` raises `IndexError` when
the token is shorter than two characters. The membership test
`context_name[1] in quotes` compares a one-character string against the
two-character element of `quotesPy`, so the quoted branch is dead code and
every surviving token becomes `context_name_var`. -/
def mkObjChunksListNode (obj cn : String) : Except PErr ObjChunksListNode :=
  match cn.toList.get? 1 with
  | none => .error .indexError
  | some c1 =>
    if quotesPy.contains (String.singleton c1) then
      if cn.toList.getLast? ≠ some c1 then .error .syntaxError
      else .ok ⟨obj, some (stripEnds cn), none⟩
    else .ok ⟨obj, none, some cn⟩

/-- Binding into the context: `context[context_name] = chunks`. Only string
names occur through `Variable.resolve` in this model (a non-string Python
dict key is not representable in `Context.vars` and no claim exercises it). -/
def Context.bind (ctx : Context) (nm : Value) (m : List (String × String)) :
    Context :=
  match nm with
  | .str s => { ctx with vars := (s, .mapping m) :: ctx.vars }
  | _ => ctx

/-- Outcome of `ObjChunksListNode.render`: the returned string together with
the updated context, or a propagated exception (`VariableDoesNotExist` from
the target-name variable, which sits outside the `try`; `ImproperlyConfigured`
for a missing request; `AttributeError` for a non-owner value). -/
inductive BindResult where
  | ok (out : String) (ctx : Context)
  | varError
  | configError
  | attrError

/-- `ObjChunksListNode.render(context)`. The target name is computed before
the `try` block, so its `VariableDoesNotExist` propagates; the owner
variable's failure is caught and binds an empty mapping; the missing-request
raise happens before `obj.chunks` and is not caught. -/
def ObjChunksListNode.render (node : ObjChunksListNode) (ctx : Context)
    (cache : Cache) : BindResult × Cache × List Event :=
  let base := if truthyOpt node.context_name then node.context_name.getD "" else ""
  let nameVal : Option Value :=
    match node.context_name_var with
    | none => some (.str base)
    | some v => Variable.resolve v ctx
  match nameVal with
  | none => (.varError, cache, [])
  | some nm =>
    match Variable.resolve node.obj ctx with
    | none => (.ok "" (Context.bind ctx nm []), cache, [])
    | some ov =>
      match ctx.request with
      | none => (.configError, cache, [])
      | some _ =>
        match ov with
        | .owner o => (.ok "" (Context.bind ctx nm o.chunksFn), cache, [])
        | _ => (.attrError, cache, [])

/-- Outcome of `do_get_object_chunk`: a constructed node, a
`TemplateSyntaxError`, the `UnboundLocalError` on `key` reached by two-token
lists, or the `IndexError` of formatting `tokens[0]` on an empty list. -/
inductive ParseOutcome where
  | node (n : ObjChunkNode)
  | syntaxError
  | unboundLocalError
  | indexError
deriving DecidableEq, Repr

/-- `do_get_object_chunk(parser, token)` on the already-split token list.
The guard checks `len(tokens) < 2 or len(tokens) > 5`, so a two-token list
passes it, assigns no `key`, and crashes with `UnboundLocalError` at the
quote check. In the five-token branch the default-chunk quote check precedes
the key quote check. The `int(self.cache_time)` conversion happens at render
time in the source; the model applies it here, which is observationally
equivalent for numeric tokens (non-numeric `cache_time` tokens, which raise
`ValueError` at render, are outside every claim). -/
def do_get_object_chunk (tokens : List String) : ParseOutcome :=
  if tokens.length < 2 || tokens.length > 5 then
    match tokens with
    | [] => .indexError
    | _ => .syntaxError
  else
    match tokens with
    | [_, obj, key] =>
      if isQuotedLit key then .node ⟨obj, stripEnds key, 0, none⟩
      else .syntaxError
    | [_, obj, key, ct] =>
      if isQuotedLit key then
        .node ⟨obj, stripEnds key, (String.toInt? ct).getD 0, none⟩
      else .syntaxError
    | [_, obj, key, ct, dk] =>
      if !isQuotedLit dk then .syntaxError
      else if isQuotedLit key then
        .node ⟨obj, stripEnds key, (String.toInt? ct).getD 0, some (stripEnds dk)⟩
      else .syntaxError
    | _ => .unboundLocalError

/-- `do_get_chunk(parser, token)` on the split token list: 2–3 tokens, key
must be quoted; the `IndexError` case covers formatting `tokens[0]` on an
empty list. -/
def do_get_chunk (tokens : List String) : Except PErr ChunkNode :=
  if tokens.length < 2 || tokens.length > 3 then
    match tokens with
    | [] => .error .indexError
    | _ => .error .syntaxError
  else
    match tokens with
    | [_, key] =>
      if isQuotedLit key then .ok ⟨stripEnds key, 0⟩ else .error .syntaxError
    | [_, key, ct] =>
      if isQuotedLit key then .ok ⟨stripEnds key, (String.toInt? ct).getD 0⟩
      else .error .syntaxError
    | _ => .error .syntaxError

/-- `do_get_object_chunks_list(parser, token)`: exactly 3 tokens, then the
`ObjChunksListNode` constructor runs. -/
def do_get_object_chunks_list (tokens : List String) :
    Except PErr ObjChunksListNode :=
  match tokens with
  | [_, obj, cn] => mkObjChunksListNode obj cn
  | [] => .error .indexError
  | _ => .error .syntaxError

/-- `cache.get` immediately after `cache.set` of the same key returns the
value just stored. -/
theorem cacheGet_cacheSet_self (c : Cache) (k : String) (v : String) (t : Int) :
    cacheGet (cacheSet c k v t) k = some v := by
  simp [cacheGet, cacheSet, List.find?]

/-- A concrete owner used by witness theorems. -/
def owner0 : Owner :=
  ⟨"article", 42, fun k => "article_42_" ++ k, [("a", "x"), ("b", "y")]⟩

/-- A concrete content store used by witness theorems. -/
def store0 : Store :=
  ⟨[⟨"footer", "(c) Acme"⟩, ⟨"byline_default", "default byline"⟩],
   [⟨"article", 42, "byline", "By J. Doe"⟩]⟩

/-- A concrete context with a request and the owner variable `art`. -/
def ctxReq : Context := ⟨some (), [("art", .owner owner0)]⟩

/-- The same context without a request. -/
def ctxNoReq : Context := ⟨none, [("art", .owner owner0)]⟩

/-- C5: on a cache hit, both resolvers return the cached text and the only
collaborator event is the cache read: no content-store lookup, no renderer
call, no cache write, cache unchanged. -/
theorem c5_cache_hit_short_circuits :
    (∀ (pfx : String) (node : ChunkNode) (store : Store) (rdr : String → String)
       (ctx : Context) (cache : Cache) (v : String),
       cacheGet cache (pfx ++ node.key) = some v →
       ChunkNode.render node pfx store rdr ctx cache =
         (.ok v, cache, [.cacheGet (pfx ++ node.key)])) ∧
    (∀ (node : ObjChunkNode) (store : Store) (rdr : String → String)
       (ctx : Context) (cache : Cache) (o : Owner) (v : String),
       Variable.resolve node.obj ctx = some (.owner o) →
       cacheGet cache (o.cacheKeyFn node.key) = some v →
       ObjChunkNode.render node store rdr ctx cache =
         (.ok v, cache, [.cacheGet (o.cacheKeyFn node.key)])) := by
  constructor
  · intro pfx node store rdr ctx cache v hhit
    simp only [ChunkNode.render, hhit]
  · intro node store rdr ctx cache o v hobj hhit
    simp only [ObjChunkNode.render, hobj, hhit]

theorem c5_cache_hit_short_circuits_witness :
    ChunkNode.render ⟨"footer", 60⟩ "chunks_" store0 id ctxReq
        [⟨"chunks_footer", "hit", 60⟩] =
      (.ok "hit", [⟨"chunks_footer", "hit", 60⟩], [.cacheGet "chunks_footer"]) ∧
    ObjChunkNode.render ⟨"art", "byline", 0, none⟩ store0 id ctxReq
        [⟨"article_42_byline", "hit2", 0⟩] =
      (.ok "hit2", [⟨"article_42_byline", "hit2", 0⟩],
        [.cacheGet "article_42_byline"]) :=
  ⟨c5_cache_hit_short_circuits.1 "chunks_" ⟨"footer", 60⟩ store0 id ctxReq
      [⟨"chunks_footer", "hit", 60⟩] "hit" rfl,
   c5_cache_hit_short_circuits.2 ⟨"art", "byline", 0, none⟩ store0 id ctxReq
      [⟨"article_42_byline", "hit2", 0⟩] owner0 "hit2" rfl rfl⟩

/-- C7: on a cache miss with an existing global chunk and a request present,
`ChunkNode.render` reads and writes the cache under exactly the fixed prefix
concatenated with the key (no owner component), stores the rendered result
with TTL `cache_time`, and returns it. -/
theorem c7_global_cache_key_and_ttl (pfx : String) (node : ChunkNode)
    (store : Store) (rdr : String → String) (ctx : Context) (cache : Cache)
    (c : Chunk)
    (hmiss : cacheGet cache (pfx ++ node.key) = none)
    (hfound : Chunk.objects_get store node.key = some c)
    (hreq : ctx.request = some ()) :
    ChunkNode.render node pfx store rdr ctx cache =
      (.ok (rdr c.content),
       cacheSet cache (pfx ++ node.key) (rdr c.content) node.cache_time,
       [.cacheGet (pfx ++ node.key), .chunkGet node.key, .renderCall c.content,
        .cacheSet (pfx ++ node.key) (rdr c.content) node.cache_time]) := by
  simp only [ChunkNode.render, hmiss, hfound, hreq]

theorem c7_global_cache_key_and_ttl_witness :
    ChunkNode.render ⟨"footer", 60⟩ "chunks_" store0 id ctxReq [] =
      (.ok "(c) Acme",
       cacheSet [] "chunks_footer" "(c) Acme" 60,
       [.cacheGet "chunks_footer", .chunkGet "footer", .renderCall "(c) Acme",
        .cacheSet "chunks_footer" "(c) Acme" 60]) :=
  c7_global_cache_key_and_ttl "chunks_" ⟨"footer", 60⟩ store0 id ctxReq []
    ⟨"footer", "(c) Acme"⟩ rfl rfl rfl

/-- C1: on a cache miss where an inline chunk exists for (owner type, owner
id, key), `ObjChunkNode.render` returns that inline chunk's rendered content;
the event trace contains no global-chunk lookup, so the chunk named by
`default_chunk` is never consulted even when one is supplied. -/
theorem c1_inline_chunk_preferred (node : ObjChunkNode) (store : Store)
    (rdr : String → String) (ctx : Context) (cache : Cache) (o : Owner)
    (c : InlineChunk)
    (hobj : Variable.resolve node.obj ctx = some (.owner o))
    (hmiss : cacheGet cache (o.cacheKeyFn node.key) = none)
    (hinline : InlineChunk.objects_get store o.typeName o.id node.key = some c)
    (hreq : ctx.request = some ()) :
    ObjChunkNode.render node store rdr ctx cache =
      (.ok (rdr c.content),
       cacheSet cache (o.cacheKeyFn node.key) (rdr c.content) node.cache_time,
       [.cacheGet (o.cacheKeyFn node.key), .inlineGet o.typeName o.id node.key,
        .renderCall c.content,
        .cacheSet (o.cacheKeyFn node.key) (rdr c.content) node.cache_time]) := by
  simp only [ObjChunkNode.render, hobj, hmiss, hinline, renderFound, hreq,
    List.cons_append, List.nil_append]

theorem c1_inline_chunk_preferred_witness :
    ObjChunkNode.render ⟨"art", "byline", 0, some "byline_default"⟩ store0 id
        ctxReq [] =
      (.ok "By J. Doe",
       cacheSet [] "article_42_byline" "By J. Doe" 0,
       [.cacheGet "article_42_byline", .inlineGet "article" 42 "byline",
        .renderCall "By J. Doe",
        .cacheSet "article_42_byline" "By J. Doe" 0]) :=
  c1_inline_chunk_preferred ⟨"art", "byline", 0, some "byline_default"⟩ store0
    id ctxReq [] owner0 ⟨"article", 42, "byline", "By J. Doe"⟩ rfl rfl rfl rfl

/-- C2: when no chunk matches — global lookup fails for `ChunkNode`, or the
inline lookup fails and the default fallback is absent/falsy or also fails
for `ObjChunkNode` — the result is the empty string and the cache is
unchanged: the event trace contains no cache write. -/
theorem c2_not_found_returns_empty_uncached :
    (∀ (pfx : String) (node : ChunkNode) (store : Store)
       (rdr : String → String) (ctx : Context) (cache : Cache),
       cacheGet cache (pfx ++ node.key) = none →
       Chunk.objects_get store node.key = none →
       ChunkNode.render node pfx store rdr ctx cache =
         (.ok "", cache, [.cacheGet (pfx ++ node.key), .chunkGet node.key])) ∧
    (∀ (node : ObjChunkNode) (store : Store) (rdr : String → String)
       (ctx : Context) (cache : Cache) (o : Owner),
       Variable.resolve node.obj ctx = some (.owner o) →
       cacheGet cache (o.cacheKeyFn node.key) = none →
       InlineChunk.objects_get store o.typeName o.id node.key = none →
       truthyOpt node.default_chunk = false →
       ObjChunkNode.render node store rdr ctx cache =
         (.ok "", cache,
          [.cacheGet (o.cacheKeyFn node.key),
           .inlineGet o.typeName o.id node.key])) ∧
    (∀ (node : ObjChunkNode) (store : Store) (rdr : String → String)
       (ctx : Context) (cache : Cache) (o : Owner) (dk : String),
       Variable.resolve node.obj ctx = some (.owner o) →
       cacheGet cache (o.cacheKeyFn node.key) = none →
       InlineChunk.objects_get store o.typeName o.id node.key = none →
       node.default_chunk = some dk →
       dk ≠ "" →
       Chunk.objects_get store dk = none →
       ObjChunkNode.render node store rdr ctx cache =
         (.ok "", cache,
          [.cacheGet (o.cacheKeyFn node.key),
           .inlineGet o.typeName o.id node.key, .chunkGet dk])) := by
  refine ⟨?_, ?_, ?_⟩
  · intro pfx node store rdr ctx cache hmiss hnf
    simp only [ChunkNode.render, hmiss, hnf]
  · intro node store rdr ctx cache o hobj hmiss hnf hdef
    simp only [ObjChunkNode.render, hobj, hmiss, hnf, hdef, Bool.false_eq_true,
      if_false]
  · intro node store rdr ctx cache o dk hobj hmiss hnf hdk hne hglob
    have ht : truthyOpt (some dk) = true := by simp [truthyOpt, hne]
    simp only [ObjChunkNode.render, hobj, hmiss, hnf, hdk, ht, if_true,
      Option.getD_some, hglob]

theorem c2_not_found_returns_empty_uncached_witness :
    ChunkNode.render ⟨"missing", 60⟩ "chunks_" store0 id ctxReq [] =
      (.ok "", [], [.cacheGet "chunks_missing", .chunkGet "missing"]) ∧
    ObjChunkNode.render ⟨"art", "nokey", 0, none⟩ store0 id ctxReq [] =
      (.ok "", [], [.cacheGet "article_42_nokey", .inlineGet "article" 42 "nokey"]) ∧
    ObjChunkNode.render ⟨"art", "nokey", 0, some "nodefault"⟩ store0 id ctxReq [] =
      (.ok "", [], [.cacheGet "article_42_nokey", .inlineGet "article" 42 "nokey",
        .chunkGet "nodefault"]) :=
  ⟨c2_not_found_returns_empty_uncached.1 "chunks_" ⟨"missing", 60⟩ store0 id
      ctxReq [] rfl rfl,
   c2_not_found_returns_empty_uncached.2.1 ⟨"art", "nokey", 0, none⟩ store0 id
      ctxReq [] owner0 rfl rfl rfl rfl,
   c2_not_found_returns_empty_uncached.2.2 ⟨"art", "nokey", 0, some "nodefault"⟩
      store0 id ctxReq [] owner0 "nodefault" rfl rfl rfl rfl
      (by decide) rfl⟩

/-- C3: when a render would otherwise occur and the context holds no request,
all three operations yield the propagated `ImproperlyConfigured` outcome
rather than an empty result: `ChunkNode` after finding a global chunk on a
cache miss, `ObjChunkNode` after finding either the inline chunk or the
default global chunk, and `ObjChunksListNode` after the owner resolves. -/
theorem c3_missing_request_raises :
    (∀ (pfx : String) (node : ChunkNode) (store : Store)
       (rdr : String → String) (ctx : Context) (cache : Cache) (c : Chunk),
       ctx.request = none →
       cacheGet cache (pfx ++ node.key) = none →
       Chunk.objects_get store node.key = some c →
       (ChunkNode.render node pfx store rdr ctx cache).1 = .configError) ∧
    (∀ (node : ObjChunkNode) (store : Store) (rdr : String → String)
       (ctx : Context) (cache : Cache) (o : Owner),
       ctx.request = none →
       Variable.resolve node.obj ctx = some (.owner o) →
       cacheGet cache (o.cacheKeyFn node.key) = none →
       ((∃ c, InlineChunk.objects_get store o.typeName o.id node.key = some c) ∨
        (InlineChunk.objects_get store o.typeName o.id node.key = none ∧
         truthyOpt node.default_chunk = true ∧
         ∃ c, Chunk.objects_get store (node.default_chunk.getD "") = some c)) →
       (ObjChunkNode.render node store rdr ctx cache).1 = .configError) ∧
    (∀ (node : ObjChunksListNode) (ctx : Context) (cache : Cache) (o : Owner),
       ctx.request = none →
       (∀ v, node.context_name_var = some v →
          ∃ val, Variable.resolve v ctx = some val) →
       Variable.resolve node.obj ctx = some (.owner o) →
       (ObjChunksListNode.render node ctx cache).1 = .configError) := by
  refine ⟨?_, ?_, ?_⟩
  · intro pfx node store rdr ctx cache c hreq hmiss hfound
    simp only [ChunkNode.render, hmiss, hfound, hreq]
  · intro node store rdr ctx cache o hreq hobj hmiss hfound
    rcases hfound with ⟨c, hc⟩ | ⟨hnf, ht, c, hc⟩
    · simp only [ObjChunkNode.render, hobj, hmiss, hc, renderFound, hreq]
    · simp only [ObjChunkNode.render, hobj, hmiss, hnf, ht, if_true, hc,
        renderFound, hreq]
  · intro node ctx cache o hreq hname hobj
    cases hv : node.context_name_var with
    | none => simp only [ObjChunksListNode.render, hv, hobj, hreq]
    | some v =>
      obtain ⟨val, hval⟩ := hname v hv
      simp only [ObjChunksListNode.render, hv, hval, hobj, hreq]

theorem c3_missing_request_raises_witness :
    (ChunkNode.render ⟨"footer", 60⟩ "chunks_" store0 id ctxNoReq []).1 =
      .configError ∧
    (ObjChunkNode.render ⟨"art", "byline", 0, none⟩ store0 id ctxNoReq []).1 =
      .configError ∧
    (ObjChunksListNode.render ⟨"art", none, some "\"items\""⟩ ctxNoReq []).1 =
      .configError :=
  ⟨c3_missing_request_raises.1 "chunks_" ⟨"footer", 60⟩ store0 id ctxNoReq []
      ⟨"footer", "(c) Acme"⟩ rfl rfl rfl,
   c3_missing_request_raises.2.1 ⟨"art", "byline", 0, none⟩ store0 id ctxNoReq
      [] owner0 rfl rfl rfl
      (Or.inl ⟨⟨"article", 42, "byline", "By J. Doe"⟩, rfl⟩),
   c3_missing_request_raises.2.2 ⟨"art", none, some "\"items\""⟩ ctxNoReq []
      owner0 rfl
      (fun v hv => by
        injection hv with h
        subst h
        exact ⟨.str "items", rfl⟩)
      rfl⟩

/-- C6: when the owner variable cannot be resolved, `ObjChunkNode.render`
returns the empty string with no propagated exception and touches nothing,
and `ObjChunksListNode.render` binds an empty mapping under the resolved
target name with no propagated exception. -/
theorem c6_unresolved_owner_degrades :
    (∀ (node : ObjChunkNode) (store : Store) (rdr : String → String)
       (ctx : Context) (cache : Cache),
       Variable.resolve node.obj ctx = none →
       ObjChunkNode.render node store rdr ctx cache = (.ok "", cache, [])) ∧
    (∀ (node : ObjChunksListNode) (ctx : Context) (cache : Cache)
       (v nm : String),
       node.context_name_var = some v →
       Variable.resolve v ctx = some (.str nm) →
       Variable.resolve node.obj ctx = none →
       ObjChunksListNode.render node ctx cache =
         (.ok "" ⟨ctx.request, (nm, .mapping []) :: ctx.vars⟩, cache, [])) := by
  constructor
  · intro node store rdr ctx cache hobj
    simp only [ObjChunkNode.render, hobj]
  · intro node ctx cache v nm hv hval hobj
    simp only [ObjChunksListNode.render, hv, hval, hobj, Context.bind]

theorem c6_unresolved_owner_degrades_witness :
    ObjChunkNode.render ⟨"ghost", "byline", 0, some "byline_default"⟩ store0 id
        ctxReq [] = (.ok "", [], []) ∧
    ObjChunksListNode.render ⟨"ghost", none, some "\"items\""⟩ ctxReq [] =
      (.ok ""
        ⟨some (), [("items", .mapping []), ("art", .owner owner0)]⟩, [], []) :=
  ⟨c6_unresolved_owner_degrades.1 ⟨"ghost", "byline", 0, some "byline_default"⟩
      store0 id ctxReq [] rfl,
   c6_unresolved_owner_degrades.2 ⟨"ghost", none, some "\"items\""⟩ ctxReq []
      "\"items\"" "items" rfl rfl rfl⟩

/-- C9: when the renderer yields the empty string it is still written to the
cache, because the miss test checks for `None` rather than emptiness; a
second call on the updated cache is therefore a pure cache hit returning `""`
with no content-store lookup. Stated for both resolvers. -/
theorem c9_empty_render_is_cached :
    (∀ (pfx : String) (node : ChunkNode) (store : Store)
       (rdr : String → String) (ctx : Context) (cache : Cache) (c : Chunk),
       cacheGet cache (pfx ++ node.key) = none →
       Chunk.objects_get store node.key = some c →
       ctx.request = some () →
       rdr c.content = "" →
       ChunkNode.render node pfx store rdr ctx cache =
         (.ok "", cacheSet cache (pfx ++ node.key) "" node.cache_time,
          [.cacheGet (pfx ++ node.key), .chunkGet node.key,
           .renderCall c.content,
           .cacheSet (pfx ++ node.key) "" node.cache_time]) ∧
       ChunkNode.render node pfx store rdr ctx
           (cacheSet cache (pfx ++ node.key) "" node.cache_time) =
         (.ok "", cacheSet cache (pfx ++ node.key) "" node.cache_time,
          [.cacheGet (pfx ++ node.key)])) ∧
    (∀ (node : ObjChunkNode) (store : Store) (rdr : String → String)
       (ctx : Context) (cache : Cache) (o : Owner) (c : InlineChunk),
       Variable.resolve node.obj ctx = some (.owner o) →
       cacheGet cache (o.cacheKeyFn node.key) = none →
       InlineChunk.objects_get store o.typeName o.id node.key = some c →
       ctx.request = some () →
       rdr c.content = "" →
       ObjChunkNode.render node store rdr ctx cache =
         (.ok "", cacheSet cache (o.cacheKeyFn node.key) "" node.cache_time,
          [.cacheGet (o.cacheKeyFn node.key),
           .inlineGet o.typeName o.id node.key, .renderCall c.content,
           .cacheSet (o.cacheKeyFn node.key) "" node.cache_time]) ∧
       ObjChunkNode.render node store rdr ctx
           (cacheSet cache (o.cacheKeyFn node.key) "" node.cache_time) =
         (.ok "", cacheSet cache (o.cacheKeyFn node.key) "" node.cache_time,
          [.cacheGet (o.cacheKeyFn node.key)])) := by
  constructor
  · intro pfx node store rdr ctx cache c hmiss hfound hreq hempty
    constructor
    · simp only [ChunkNode.render, hmiss, hfound, hreq, hempty]
    · simp only [ChunkNode.render, cacheGet_cacheSet_self]
  · intro node store rdr ctx cache o c hobj hmiss hinline hreq hempty
    constructor
    · simp only [ObjChunkNode.render, hobj, hmiss, hinline, renderFound, hreq,
        hempty, List.cons_append, List.nil_append]
    · simp only [ObjChunkNode.render, hobj, cacheGet_cacheSet_self]

theorem c9_empty_render_is_cached_witness :
    (ChunkNode.render ⟨"footer", 60⟩ "chunks_" store0 (fun _ => "") ctxReq [] =
      (.ok "", cacheSet [] "chunks_footer" "" 60,
       [.cacheGet "chunks_footer", .chunkGet "footer",
        .renderCall "(c) Acme", .cacheSet "chunks_footer" "" 60]) ∧
     ChunkNode.render ⟨"footer", 60⟩ "chunks_" store0 (fun _ => "") ctxReq
         (cacheSet [] "chunks_footer" "" 60) =
      (.ok "", cacheSet [] "chunks_footer" "" 60,
       [.cacheGet "chunks_footer"])) ∧
    (ObjChunkNode.render ⟨"art", "byline", 0, none⟩ store0 (fun _ => "")
         ctxReq [] =
      (.ok "", cacheSet [] "article_42_byline" "" 0,
       [.cacheGet "article_42_byline", .inlineGet "article" 42 "byline",
        .renderCall "By J. Doe", .cacheSet "article_42_byline" "" 0]) ∧
     ObjChunkNode.render ⟨"art", "byline", 0, none⟩ store0 (fun _ => "")
         ctxReq (cacheSet [] "article_42_byline" "" 0) =
      (.ok "", cacheSet [] "article_42_byline" "" 0,
       [.cacheGet "article_42_byline"])) :=
  ⟨c9_empty_render_is_cached.1 "chunks_" ⟨"footer", 60⟩ store0 (fun _ => "")
      ctxReq [] ⟨"footer", "(c) Acme"⟩ rfl rfl rfl rfl,
   c9_empty_render_is_cached.2 ⟨"art", "byline", 0, none⟩ store0 (fun _ => "")
      ctxReq [] owner0 ⟨"article", 42, "byline", "By J. Doe"⟩ rfl rfl rfl rfl
      rfl⟩

/-- C10: whenever `ObjChunksListNode.render` does not propagate an exception,
the string it renders into the template output is empty — its only observable
effect is the context binding. -/
theorem c10_bind_all_output_empty (node : ObjChunksListNode) (ctx : Context)
    (cache : Cache) (out : String) (ctx' : Context)
    (h : (ObjChunksListNode.render node ctx cache).1 = .ok out ctx') :
    out = "" := by
  simp only [ObjChunksListNode.render] at h
  repeat' split at h
  all_goals simp_all

theorem c10_bind_all_output_empty_witness :
    (ObjChunksListNode.render ⟨"art", none, some "\"items\""⟩ ctxReq []).1 =
      .ok ""
        ⟨some (),
         [("items", .mapping [("a", "x"), ("b", "y")]),
          ("art", .owner owner0)]⟩ ∧
    ("" : String) = "" :=
  ⟨rfl,
   c10_bind_all_output_empty ⟨"art", none, some "\"items\""⟩ ctxReq [] ""
     ⟨some (),
      [("items", .mapping [("a", "x"), ("b", "y")]),
       ("art", .owner owner0)]⟩ rfl⟩

/-- No one-character string is a member of the Python list `quotes = ["'\""]`,
whose single element has two characters: the quoted-name branch of the
`ObjChunksListNode` constructor is dead code. -/
theorem singleton_notin_quotesPy (c : Char) :
    quotesPy.contains (String.singleton c) = false := by
  have hne : String.singleton c ≠ "\'\"" := by
    intro h
    have hlen := congrArg String.length h
    simp [String.singleton, String.length] at hlen
  simp [quotesPy, List.contains, hne]

/-- C8: for a node built by the `object_chunks_list` constructor, when the
owner resolves to an owner value and a request is present, the render binds
exactly the owner's aggregation mapping, unmodified, under the target name —
the stripped literal when the token is quoted, otherwise the string held by
the context variable of that name — returns `""`, and performs no cache read
or write (the cache is unchanged and the event trace is empty). -/
theorem c8_bind_all_binds_exact_mapping (obj_tok cn_tok : String)
    (node : ObjChunksListNode) (ctx : Context) (cache : Cache) (o : Owner)
    (hmk : mkObjChunksListNode obj_tok cn_tok = .ok node)
    (hobj : Variable.resolve node.obj ctx = some (.owner o))
    (hreq : ctx.request = some ()) :
    (isQuotedLit cn_tok = true →
       ObjChunksListNode.render node ctx cache =
         (.ok ""
            ⟨ctx.request, (stripEnds cn_tok, .mapping o.chunksFn) :: ctx.vars⟩,
          cache, [])) ∧
    (isQuotedLit cn_tok = false →
       ∀ nm, lookupVar ctx.vars cn_tok = some (.str nm) →
       ObjChunksListNode.render node ctx cache =
         (.ok "" ⟨ctx.request, (nm, .mapping o.chunksFn) :: ctx.vars⟩,
          cache, [])) := by
  have hnode : node = ⟨obj_tok, none, some cn_tok⟩ := by
    revert hmk
    unfold mkObjChunksListNode
    cases hg : cn_tok.toList.get? 1 with
    | none => intro hmk; cases hmk
    | some c1 =>
      simp only [singleton_notin_quotesPy, Bool.false_eq_true, if_false]
      intro hmk
      cases hmk
      rfl
  subst hnode
  constructor
  · intro hq
    simp only [ObjChunksListNode.render, Variable.resolve, hq, if_true] at *
    simp only [ObjChunksListNode.render, hobj, hreq, Context.bind]
  · intro hq nm hnm
    simp only [ObjChunksListNode.render, Variable.resolve, hq,
      Bool.false_eq_true, if_false, hnm] at *
    simp only [hobj, hreq, Context.bind]

theorem c8_bind_all_binds_exact_mapping_witness :
    ObjChunksListNode.render ⟨"art", none, some "\"items\""⟩ ctxReq [] =
      (.ok ""
        ⟨some (),
         [("items", .mapping [("a", "x"), ("b", "y")]),
          ("art", .owner owner0)]⟩, [], []) ∧
    ObjChunksListNode.render ⟨"art", none, some "nm"⟩
        ⟨some (), [("nm", .str "target"), ("art", .owner owner0)]⟩ [] =
      (.ok ""
        ⟨some (),
         [("target", .mapping [("a", "x"), ("b", "y")]),
          ("nm", .str "target"), ("art", .owner owner0)]⟩, [], []) :=
  ⟨(c8_bind_all_binds_exact_mapping "art" "\"items\""
      ⟨"art", none, some "\"items\""⟩ ctxReq [] owner0 rfl rfl rfl).1 rfl,
   (c8_bind_all_binds_exact_mapping "art" "nm" ⟨"art", none, some "nm"⟩
      ⟨some (), [("nm", .str "target"), ("art", .owner owner0)]⟩ [] owner0 rfl
      rfl rfl).2 rfl "target" rfl⟩

/-- C4 (code defect): `do_get_object_chunk` guards `len(tokens) < 2 or
len(tokens) > 5` although its own error message announces "3 or 5 arguments",
so a two-token list — outside the documented 3–5 bound — slips past the guard
and dies with `UnboundLocalError` on `key` instead of the
`TemplateSyntaxError` the spec requires; lengths 1 and 6 do raise the syntax
error. -/
theorem c4_two_token_list_escapes_guard :
    do_get_object_chunk ["object_chunk", "article"] = .unboundLocalError ∧
    do_get_object_chunk ["object_chunk"] = .syntaxError ∧
    do_get_object_chunk ["object_chunk", "article", "\"k\"", "0", "\"d\"", "x"] =
      .syntaxError := by
  refine ⟨rfl, rfl, rfl⟩
